import Mathlib

/-!
Shallow embedding of the autonomous decision / rate-limiting core of the
`petergriffinbot` repository, together with theorems settling the frozen
claims about it.

Conventions of the embedding:
* Python `time.time()` timestamps (floats used as real-valued seconds) are
  modelled as rationals `ℚ`; Python `int(x)` truncation toward zero is
  `pyInt`.
* `datetime.now(timezone.utc).date()` is modelled by the UTC day index
  `utcDay now = ⌊now / 86400⌋` of the current Unix time.
* Methods of `RateLimitTracker` (src/rate_limit_tracker.py) mutate
  `self.state`; here each is a function from the state (and the current
  time) to its result, paired with the updated state where the method
  mutates it.
* Presentation-only string fields of returned dictionaries (the
  human-readable `next_available` / `last_post` strings of `get_status`)
  are elided; every field any claim speaks about is kept, with the exact
  literal strings of the source.
-/

/-- Python `int(x)` on a real number: truncation toward zero. -/
def pyInt (q : ℚ) : ℤ :=
  if 0 ≤ q then ⌊q⌋ else -⌊-q⌋

/-- UTC calendar day index of a Unix timestamp, modelling
`datetime.now(timezone.utc).date()` (86400 seconds per UTC day). -/
def utcDay (t : ℚ) : ℤ :=
  ⌊t / 86400⌋

/-- The persisted rate-limit state (`self.state` of `RateLimitTracker`).
`reset_date` is the UTC day index of the last daily reset. -/
structure RateLimitState where
  reset_date : ℤ
  comments_today : ℤ
  last_comment_time : ℚ
  last_post_time : ℚ
  comment_blocked_until : ℚ
  post_blocked_until : ℚ
deriving DecidableEq

/-- Limit `self.limits["comments_per_day"]`. -/
def comments_per_day : ℤ := 50

/-- Limit `self.limits["comment_cooldown_seconds"]`. -/
def comment_cooldown_seconds : ℚ := 20

/-- Limit `self.limits["post_cooldown_minutes"]`. -/
def post_cooldown_minutes : ℚ := 30

/-- Method `RateLimitTracker._create_initial_state`: fresh zeroed state dated to
the current UTC day. -/
def create_initial_state (today : ℤ) : RateLimitState :=
  { reset_date := today
    comments_today := 0
    last_comment_time := 0
    last_post_time := 0
    comment_blocked_until := 0
    post_blocked_until := 0 }

/-- Method `RateLimitTracker._check_and_reset_daily`: if the stored `reset_date`
differs from the current UTC date, zero the daily comment counter and
update `reset_date`. -/
def check_and_reset_daily (s : RateLimitState) (today : ℤ) : RateLimitState :=
  if s.reset_date ≠ today then
    { s with reset_date := today, comments_today := 0 }
  else
    s

/-- The dictionary returned by `RateLimitTracker.can_comment` (absent keys
modelled as `none`). -/
structure CommentCheck where
  allowed : Bool
  reason : Option String
  message : Option String
  wait_seconds : Option ℤ
  wait_until : Option String
  comments_remaining : ℤ
deriving DecidableEq

/-- Method `RateLimitTracker.can_comment`, paired with the updated stored state
(the method mutates `self.state` through `_check_and_reset_daily`).
The first branch mirrors Python `if blocked_until and now < blocked_until`
(`blocked_until` is truthy iff nonzero). -/
def can_comment (s : RateLimitState) (now : ℚ) : CommentCheck × RateLimitState :=
  let s := check_and_reset_daily s (utcDay now)
  if s.comment_blocked_until ≠ 0 ∧ now < s.comment_blocked_until then
    ({ allowed := false
       reason := some "cooldown"
       message := some "Comment cooldown active (server rate limit)"
       wait_seconds := some (pyInt (s.comment_blocked_until - now) + 1)
       wait_until := none
       comments_remaining := comments_per_day - s.comments_today }, s)
  else if comments_per_day ≤ s.comments_today then
    ({ allowed := false
       reason := some "daily_limit"
       message := some "Daily comment limit reached (50/day)"
       wait_seconds := none
       wait_until := some "tomorrow (UTC midnight)"
       comments_remaining := 0 }, s)
  else if now - s.last_comment_time < comment_cooldown_seconds then
    ({ allowed := false
       reason := some "cooldown"
       message := some "Comment cooldown active (20s between comments)"
       wait_seconds := some (pyInt (comment_cooldown_seconds - (now - s.last_comment_time)))
       wait_until := none
       comments_remaining := comments_per_day - s.comments_today }, s)
  else
    ({ allowed := true
       reason := none
       message := none
       wait_seconds := none
       wait_until := none
       comments_remaining := comments_per_day - s.comments_today }, s)

/-- The dictionary returned by `RateLimitTracker.can_post`. -/
structure PostCheck where
  allowed : Bool
  reason : Option String
  message : Option String
  wait_minutes : Option ℤ
deriving DecidableEq

/-- Method `RateLimitTracker.can_post`, paired with the (unchanged) stored state.
Note the source performs no `_check_and_reset_daily` call here. -/
def can_post (s : RateLimitState) (now : ℚ) : PostCheck × RateLimitState :=
  if s.post_blocked_until ≠ 0 ∧ now < s.post_blocked_until then
    ({ allowed := false
       reason := some "cooldown"
       message := some "Post cooldown active (server rate limit)"
       wait_minutes := some (pyInt ((s.post_blocked_until - now) / 60) + 1) }, s)
  else if now - s.last_post_time < post_cooldown_minutes * 60 then
    ({ allowed := false
       reason := some "cooldown"
       message := some "Post cooldown active (1 post per 30 minutes)"
       wait_minutes := some (pyInt ((post_cooldown_minutes * 60 - (now - s.last_post_time)) / 60) + 1) }, s)
  else
    ({ allowed := true, reason := none, message := none, wait_minutes := none }, s)

/-- Method `RateLimitTracker.record_comment`. -/
def record_comment (s : RateLimitState) (now : ℚ) : RateLimitState :=
  let s := check_and_reset_daily s (utcDay now)
  { s with
      comments_today := s.comments_today + 1
      last_comment_time := now
      comment_blocked_until := 0 }

/-- Method `RateLimitTracker.record_post`. -/
def record_post (s : RateLimitState) (now : ℚ) : RateLimitState :=
  { s with last_post_time := now, post_blocked_until := 0 }

/-- Method `RateLimitTracker.apply_comment_rate_limit`. -/
def apply_comment_rate_limit (s : RateLimitState) (now : ℚ)
    (retry_after_seconds : Option ℤ) (daily_remaining : Option ℤ) : RateLimitState :=
  let s := check_and_reset_daily s (utcDay now)
  let s := match retry_after_seconds with
    | none => s
    | some r =>
        { s with comment_blocked_until := max s.comment_blocked_until (now + (r : ℚ)) }
  match daily_remaining with
  | none => s
  | some d =>
      let daily_remaining_int := max 0 d
      let used := max 0 (comments_per_day - daily_remaining_int)
      { s with comments_today := min comments_per_day used }

/-- Method `RateLimitTracker.apply_post_rate_limit`. Note the source performs no
`_check_and_reset_daily` call here. -/
def apply_post_rate_limit (s : RateLimitState) (now : ℚ)
    (retry_after_minutes : Option ℤ) : RateLimitState :=
  match retry_after_minutes with
  | none => s
  | some r =>
      { s with post_blocked_until := max s.post_blocked_until (now + (r : ℚ) * 60) }

/-- The summary returned by `RateLimitTracker.get_status` (the
presentation-only `next_available` / `last_post` strings are elided). -/
structure StatusSummary where
  reset_date : ℤ
  comments_used : ℤ
  comments_limit : ℤ
  comments_remaining : ℤ
  comments_can_comment : Bool
  posts_can_post : Bool
  posts_cooldown_minutes : ℚ
deriving DecidableEq

/-- Method `RateLimitTracker.get_status`, paired with the updated stored state. -/
def get_status (s : RateLimitState) (now : ℚ) : StatusSummary × RateLimitState :=
  let s := check_and_reset_daily s (utcDay now)
  let comment_check := (can_comment s now).1
  let s := (can_comment s now).2
  let post_check := (can_post s now).1
  ({ reset_date := s.reset_date
     comments_used := s.comments_today
     comments_limit := comments_per_day
     comments_remaining := comments_per_day - s.comments_today
     comments_can_comment := comment_check.allowed
     posts_can_post := post_check.allowed
     posts_cooldown_minutes := post_cooldown_minutes }, s)

/-- Folding a sequence of `record_comment` calls at the given times. -/
def record_comments (s : RateLimitState) (ts : List ℚ) : RateLimitState :=
  ts.foldl record_comment s

/-! ## Tool Registry & Executor (src/tools.py) -/

/-- The structured result an executed tool returns (a Python dict; absent
keys are modelled as `none` / `false`). -/
structure Outcome where
  success : Bool
  error : Option String
  rate_limit : Bool
  reason : Option String
  comments_remaining : Option ℤ
  wait_seconds : Option ℤ
  wait_until : Option String
  wait_minutes : Option ℤ
deriving DecidableEq

/-- The response of `MoltbookClient.create_comment`, as read by
`ToolExecutor._create_comment` (a black-box external collaborator). -/
structure ClientResult where
  success : Bool
  status_code : Option ℤ
  retry_after_seconds : Option ℤ
  daily_remaining : Option ℤ
  error : Option String
deriving DecidableEq

/-- Passing a raw client response dict back as the tool outcome. -/
def client_to_outcome (c : ClientResult) : Outcome :=
  { success := c.success
    error := c.error
    rate_limit := false
    reason := none
    comments_remaining := none
    wait_seconds := none
    wait_until := none
    wait_minutes := none }

/-- Method `ToolExecutor._create_comment`: consults `can_comment` first, then the
remote client. Returns the outcome, the updated rate-limit state, and
whether the Remote Platform Client was invoked. -/
def create_comment_tool (s : RateLimitState) (now : ℚ) (client : ClientResult) :
    Outcome × RateLimitState × Bool :=
  let check := (can_comment s now).1
  let s := (can_comment s now).2
  if check.allowed = false then
    ({ success := false
       error := check.message
       rate_limit := true
       reason := check.reason
       comments_remaining := some check.comments_remaining
       wait_seconds := check.wait_seconds
       wait_until := check.wait_until
       wait_minutes := none }, s, false)
  else if client.success then
    (client_to_outcome client, record_comment s now, true)
  else if client.status_code = some 429 then
    ({ success := false
       error := some (client.error.getD "Comment rate limit reached")
       rate_limit := true
       reason := some (if client.retry_after_seconds.isSome then "cooldown" else "daily_limit")
       comments_remaining := client.daily_remaining
       wait_seconds := client.retry_after_seconds
       wait_until := none
       wait_minutes := none },
     apply_comment_rate_limit s now client.retry_after_seconds client.daily_remaining, true)
  else
    (client_to_outcome client, s, true)

/-- The keys of `ToolExecutor.tool_map`. -/
def tool_map_names : List String :=
  ["get_feed", "read_post", "create_post", "create_link_post", "delete_post",
   "create_comment", "upvote_post", "downvote_post", "search_posts", "get_posts",
   "get_comments", "upvote_comment", "follow_agent", "unfollow_agent",
   "subscribe_submolt", "unsubscribe_submolt", "get_submolts", "get_submolt_info",
   "get_submolt_feed", "create_submolt", "update_submolt_settings",
   "upload_submolt_media", "list_submolt_moderators", "add_submolt_moderator",
   "remove_submolt_moderator", "pin_post", "unpin_post", "get_agent_profile",
   "get_my_profile", "update_my_profile", "upload_my_avatar", "remove_my_avatar",
   "respond_to_user", "done_for_now"]

/-- Method `ToolExecutor.execute`: dispatch on the tool name. A handler that
raises is modelled as `Except.error`; the returned flag records whether a
handler (and hence possibly the remote client) was invoked. -/
def execute (tool_name : String) (run : String → Except String Outcome) :
    Outcome × Bool :=
  if tool_name ∈ tool_map_names then
    match run tool_name with
    | Except.ok result => (result, true)
    | Except.error e =>
        ({ success := false, error := some e, rate_limit := false, reason := none
           comments_remaining := none, wait_seconds := none, wait_until := none
           wait_minutes := none }, true)
  else
    ({ success := false, error := some ("Unknown tool: " ++ tool_name)
       rate_limit := false, reason := none, comments_remaining := none
       wait_seconds := none, wait_until := none, wait_minutes := none }, false)

/-! ## Decision Engine conversation history (src/peter_personality.py) -/

/-- A conversation message dict. `tool_calls = []` models the key being
absent (Python only adds the key for a truthy, i.e. nonempty, list);
`tool_name` is only set on tool-result messages. -/
structure Message where
  role : String
  content : String
  tool_calls : List String
  tool_name : Option String
deriving DecidableEq

/-- Cap `PeterGriffinPersonality.max_history`. -/
def max_history : ℕ := 20

/-- Method `PeterGriffinPersonality._build_system_prompt` (the persona prose is
abbreviated to its opening sentence; its text plays no role in any claim
about the history structure). -/
def build_system_prompt : String :=
  "You are Peter Griffin from Family Guy, posting on Moltbook (an AI social network)."

/-- The initial system/persona message. -/
def system_message : Message :=
  { role := "system", content := build_system_prompt, tool_calls := [], tool_name := none }

/-- Method `PeterGriffinPersonality.reset_conversation` (also the constructor's
initial history). -/
def reset_conversation : List Message :=
  [system_message]

/-- Method `PeterGriffinPersonality.add_to_history`: append, then, if the history
is longer than `max_history`, keep only the last `max_history` entries
(Python `self.conversation_history[-self.max_history:]`). -/
def add_to_history (h : List Message) (role content : String)
    (tool_calls : List String) : List Message :=
  let h := h ++ [{ role := role, content := content, tool_calls := tool_calls,
                   tool_name := none }]
  if max_history < h.length then h.drop (h.length - max_history) else h

/-- Method `PeterGriffinPersonality.add_tool_result`: append a tool-role message,
with no trimming. -/
def add_tool_result (h : List Message) (tool_name result : String) : List Message :=
  h ++ [{ role := "tool", content := result, tool_calls := [], tool_name := some tool_name }]

/-! ## Orchestrator inner decision loop (src/autonomous_agent.py) -/

/-- A tool call requested by the model. -/
structure ToolCall where
  name : String
  arguments : List (String × String)
deriving DecidableEq

/-- Whether one decision turn sets `done`: either the response contained no
tool calls, or one of them was the `done_for_now` termination tool. -/
def turn_done (tool_calls : List ToolCall) : Bool :=
  tool_calls.isEmpty || tool_calls.any (fun tc => tc.name = "done_for_now")

/-- The inner `while not done and iteration < max_iterations` loop of
`AutonomousPeterGriffinAgent.autonomous_loop`, counting the decision
iterations performed. `decide i` is the list of tool calls the Decision
Engine returns on iteration `i`; `fuel` is `max_iterations - iteration`,
the loop guard that bounds the recursion. -/
def decision_loop_aux (decide : ℕ → List ToolCall) : ℕ → ℕ → ℕ
  | 0, iteration => iteration
  | fuel + 1, iteration =>
      let iteration := iteration + 1
      if turn_done (decide iteration) then iteration
      else decision_loop_aux decide fuel iteration

/-- Number of decision iterations one orchestrator cycle performs, given
the Decision Engine's responses and `self.max_iterations_per_cycle`. -/
def decision_loop_iterations (decide : ℕ → List ToolCall) (max_iterations : ℕ) : ℕ :=
  decision_loop_aux decide max_iterations 0

/-- Cap `AutonomousPeterGriffinAgent.max_iterations_per_cycle`. -/
def max_iterations_per_cycle : ℕ := 10

/-! ## Suggestions store (src/suggestions_manager.py) -/

/-- A suggestion record. `seen_at` is only present once set by `mark_seen`. -/
structure Suggestion where
  id : ℤ
  text : String
  timestamp : ℚ
  status : String
  seen_at : Option ℚ
deriving DecidableEq

/-- Method `SuggestionsManager.get_pending`. -/
def get_pending (l : List Suggestion) : List Suggestion :=
  l.filter (fun s => s.status = "pending")

/-- Method `SuggestionsManager.mark_seen`: set the first record with the given id
to status `"seen"` (the loop breaks at the first match). -/
def mark_seen (l : List Suggestion) (suggestion_id : ℤ) (now : ℚ) : List Suggestion :=
  match l with
  | [] => []
  | s :: rest =>
      if s.id = suggestion_id then
        { s with status := "seen", seen_at := some now } :: rest
      else
        s :: mark_seen rest suggestion_id now

/-- Method `SuggestionsManager.mark_all_pending_as_seen`: the store is rewritten
keeping exactly the records whose status is not `"pending"` (each pending
record is counted, and not appended to `remaining_suggestions`). -/
def mark_all_pending_as_seen (l : List Suggestion) : List Suggestion :=
  l.filter (fun s => ¬ (s.status = "pending"))

/-! ## Helper lemmas -/

@[simp]
lemma check_and_reset_daily_reset_date (s : RateLimitState) (d : ℤ) :
    (check_and_reset_daily s d).reset_date = d := by
  unfold check_and_reset_daily
  split_ifs with h
  · rfl
  · simpa using not_not.mp h

@[simp]
lemma check_and_reset_daily_comment_blocked_until (s : RateLimitState) (d : ℤ) :
    (check_and_reset_daily s d).comment_blocked_until = s.comment_blocked_until := by
  unfold check_and_reset_daily
  split_ifs <;> rfl

@[simp]
lemma check_and_reset_daily_last_comment_time (s : RateLimitState) (d : ℤ) :
    (check_and_reset_daily s d).last_comment_time = s.last_comment_time := by
  unfold check_and_reset_daily
  split_ifs <;> rfl

@[simp]
lemma check_and_reset_daily_last_post_time (s : RateLimitState) (d : ℤ) :
    (check_and_reset_daily s d).last_post_time = s.last_post_time := by
  unfold check_and_reset_daily
  split_ifs <;> rfl

@[simp]
lemma check_and_reset_daily_post_blocked_until (s : RateLimitState) (d : ℤ) :
    (check_and_reset_daily s d).post_blocked_until = s.post_blocked_until := by
  unfold check_and_reset_daily
  split_ifs <;> rfl

lemma check_and_reset_daily_eq_self {s : RateLimitState} {d : ℤ}
    (hd : s.reset_date = d) : check_and_reset_daily s d = s := by
  unfold check_and_reset_daily
  split_ifs with h
  · exact absurd hd h
  · rfl

lemma check_and_reset_daily_idem (s : RateLimitState) (d : ℤ) :
    check_and_reset_daily (check_and_reset_daily s d) d = check_and_reset_daily s d :=
  check_and_reset_daily_eq_self (check_and_reset_daily_reset_date s d)

/-! ## Claim theorems -/

/-- C1: the method `can_comment` first performs the lazy daily reset, then evaluates
its conditions in a fixed precedence order: a server-imposed comment block
still in the future denies with reason `cooldown` and the remaining wait
(`int(blocked_until - now) + 1`); otherwise a daily count at or above 50
denies with reason `daily_limit` and wait-until next UTC midnight;
otherwise less than 20 elapsed seconds since `last_comment_time` denies
with reason `cooldown` and the exact remaining seconds; otherwise it
allows, reporting the remaining daily quota `50 - comments_today`. -/
theorem c1_can_comment_precedence (s : RateLimitState) (now : ℚ) (hnow : 0 ≤ now) :
    can_comment s now = can_comment (check_and_reset_daily s (utcDay now)) now
    ∧ (s.reset_date = utcDay now →
        (now < s.comment_blocked_until →
            (can_comment s now).1.allowed = false ∧
            (can_comment s now).1.reason = some "cooldown" ∧
            (can_comment s now).1.wait_seconds =
              some (pyInt (s.comment_blocked_until - now) + 1) ∧
            (can_comment s now).1.comments_remaining =
              comments_per_day - s.comments_today)
        ∧ (¬ now < s.comment_blocked_until → comments_per_day ≤ s.comments_today →
            (can_comment s now).1.allowed = false ∧
            (can_comment s now).1.reason = some "daily_limit" ∧
            (can_comment s now).1.wait_until = some "tomorrow (UTC midnight)")
        ∧ (¬ now < s.comment_blocked_until → s.comments_today < comments_per_day →
              now - s.last_comment_time < comment_cooldown_seconds →
            (can_comment s now).1.allowed = false ∧
            (can_comment s now).1.reason = some "cooldown" ∧
            (can_comment s now).1.wait_seconds =
              some (pyInt (comment_cooldown_seconds - (now - s.last_comment_time))) ∧
            (can_comment s now).1.comments_remaining =
              comments_per_day - s.comments_today)
        ∧ (¬ now < s.comment_blocked_until → s.comments_today < comments_per_day →
              ¬ now - s.last_comment_time < comment_cooldown_seconds →
            (can_comment s now).1.allowed = true ∧
            (can_comment s now).1.comments_remaining =
              comments_per_day - s.comments_today)) := by
  constructor
  · simp only [can_comment, check_and_reset_daily_idem]
  · intro hd
    have hs : check_and_reset_daily s (utcDay now) = s := check_and_reset_daily_eq_self hd
    refine ⟨?_, ?_, ?_, ?_⟩
    · intro hblock
      have hb0 : s.comment_blocked_until ≠ 0 := by
        intro h0
        rw [h0] at hblock
        exact absurd hblock (not_lt.mpr hnow)
      simp [can_comment, hs, hb0, hblock]
    · intro hnb hdaily
      have hc1 : ¬ (s.comment_blocked_until ≠ 0 ∧ now < s.comment_blocked_until) :=
        fun h => hnb h.2
      simp [can_comment, hs, hc1, hdaily]
    · intro hnb hdaily hcool
      have hc1 : ¬ (s.comment_blocked_until ≠ 0 ∧ now < s.comment_blocked_until) :=
        fun h => hnb h.2
      simp [can_comment, hs, hc1, not_le.mpr hdaily, hcool]
    · intro hnb hdaily hcool
      have hc1 : ¬ (s.comment_blocked_until ≠ 0 ∧ now < s.comment_blocked_until) :=
        fun h => hnb h.2
      simp [can_comment, hs, hc1, not_le.mpr hdaily, hcool]

/-- C1 witness: on a fresh state at time 100 none of the denial conditions
hold and `can_comment` allows with 50 comments remaining. -/
theorem c1_can_comment_precedence_witness :
    (can_comment (create_initial_state 0) 100).1.allowed = true ∧
    (can_comment (create_initial_state 0) 100).1.comments_remaining = 50 := by
  have h := c1_can_comment_precedence (create_initial_state 0) 100 (by norm_num)
  have h4 := (h.2 (by norm_num [create_initial_state, utcDay])).2.2.2
      (by norm_num [create_initial_state])
      (by norm_num [create_initial_state, comments_per_day])
      (by norm_num [create_initial_state, comment_cooldown_seconds])
  exact ⟨h4.1, h4.2⟩

lemma record_comments_inv (d : ℤ) (ts : List ℚ) (s : RateLimitState)
    (hd : ∀ t ∈ ts, utcDay t = d) (hs : s.reset_date = d) :
    (record_comments s ts).reset_date = d ∧
    (record_comments s ts).comments_today = s.comments_today + ts.length ∧
    (record_comments s ts).comment_blocked_until =
      (if ts.isEmpty then s.comment_blocked_until else 0) := by
  induction ts generalizing s with
  | nil => simp [record_comments, hs]
  | cons t rest ih =>
    have hdt : utcDay t = d := hd t (List.mem_cons_self t rest)
    have hrest : ∀ u ∈ rest, utcDay u = d := fun u hu => hd u (List.mem_cons_of_mem t hu)
    have hcr : check_and_reset_daily s (utcDay t) = s :=
      check_and_reset_daily_eq_self (hs.trans hdt.symm)
    have hstep : record_comment s t =
        { s with comments_today := s.comments_today + 1, last_comment_time := t,
                 comment_blocked_until := 0 } := by
      simp only [record_comment]
      rw [hcr]
    have hfold : record_comments s (t :: rest) = record_comments (record_comment s t) rest := rfl
    obtain ⟨ih1, ih2, ih3⟩ := ih (record_comment s t) hrest (by rw [hstep]; exact hs)
    refine ⟨by rw [hfold]; exact ih1, ?_, ?_⟩
    · rw [hfold, ih2, hstep]
      simp only [List.length_cons]
      push_cast
      ring
    · rw [hfold, ih3, hstep]
      by_cases hre : rest.isEmpty <;> simp [hre]

/-- C2: starting from a fresh tracker, `n` `record_comment()` calls within
a single UTC day leave `comments_today = n`, and `can_comment()` (queried
the same day) reports reason `daily_limit` exactly when `n` has reached 50;
moreover every `record_comment()` sets `last_comment_time` to the current
time and clears the server-imposed comment block. -/
theorem c2_record_comment_daily_count (d : ℤ) (ts : List ℚ)
    (hd : ∀ t ∈ ts, utcDay t = d) :
    (record_comments (create_initial_state d) ts).comments_today = ts.length
    ∧ (∀ tq : ℚ, utcDay tq = d →
        ((can_comment (record_comments (create_initial_state d) ts) tq).1.reason =
            some "daily_limit" ↔ 50 ≤ (ts.length : ℤ)))
    ∧ (∀ (s : RateLimitState) (now : ℚ),
        (record_comment s now).last_comment_time = now ∧
        (record_comment s now).comment_blocked_until = 0) := by
  obtain ⟨h1, h2, h3⟩ :=
    record_comments_inv d ts (create_initial_state d) hd rfl
  have hcount : (record_comments (create_initial_state d) ts).comments_today =
      (ts.length : ℤ) := by
    rw [h2]
    simp [create_initial_state]
  refine ⟨hcount, ?_, ?_⟩
  · intro tq htq
    have hS : check_and_reset_daily (record_comments (create_initial_state d) ts)
        (utcDay tq) = record_comments (create_initial_state d) ts :=
      check_and_reset_daily_eq_self (h1.trans htq.symm)
    have hblocked : (record_comments (create_initial_state d) ts).comment_blocked_until = 0 := by
      rw [h3]
      simp [create_initial_state]
    simp only [can_comment, hS]
    rw [if_neg (by simp [hblocked])]
    by_cases hge : comments_per_day ≤ (record_comments (create_initial_state d) ts).comments_today
    · rw [if_pos hge]
      have hgoal : (50:ℤ) ≤ (ts.length : ℤ) := by
        rw [hcount] at hge
        simpa [comments_per_day] using hge
      simp [hgoal]
    · rw [if_neg hge]
      have hlen : ¬ (50 ≤ (ts.length : ℤ)) := by
        rw [hcount] at hge
        simpa [comments_per_day] using hge
      split_ifs <;> simp [hlen]
  · intro s now
    constructor <;> simp [record_comment]

/-- C2 witness: two recorded comments at times 5 and 30 of day 0 leave the
count at 2, which is below the daily limit. -/
theorem c2_record_comment_daily_count_witness :
    (record_comments (create_initial_state 0) [5, 30]).comments_today = 2 ∧
    ¬ (can_comment (record_comments (create_initial_state 0) [5, 30]) 40).1.reason =
        some "daily_limit" := by
  have h := c2_record_comment_daily_count 0 [5, 30]
    (by
      intro t ht
      fin_cases ht <;> norm_num [utcDay])
  refine ⟨by simpa using h.1, ?_⟩
  intro hcontra
  have := (h.2.1 40 (by norm_num [utcDay])).mp hcontra
  norm_num at this

/-- C3: calling `apply_comment_rate_limit(retry_after_seconds=X)` sets the comment
server-block timestamp to the maximum of the existing block and `now + X`
(so a later call, in particular one with a smaller retry-after, never
shortens the block); a supplied `daily_remaining` sets `comments_today` to
`50 - daily_remaining` clamped to `[0, 50]`; and
`apply_post_rate_limit(retry_after_minutes=Y)` sets the post block to the
maximum of the existing block and `now + 60*Y`. -/
theorem c3_apply_rate_limit_max_semantics (s : RateLimitState) (now : ℚ) (X : ℤ)
    (dr : Option ℤ) :
    (apply_comment_rate_limit s now (some X) dr).comment_blocked_until =
        max s.comment_blocked_until (now + (X : ℚ))
    ∧ (∀ (now₂ : ℚ) (X₂ : ℤ) (dr₂ : Option ℤ),
        (apply_comment_rate_limit s now (some X) dr).comment_blocked_until ≤
          (apply_comment_rate_limit (apply_comment_rate_limit s now (some X) dr)
            now₂ (some X₂) dr₂).comment_blocked_until)
    ∧ (∀ (drv : ℤ) (ras : Option ℤ),
        (apply_comment_rate_limit s now ras (some drv)).comments_today =
          max 0 (min 50 (50 - drv)))
    ∧ (∀ Y : ℤ,
        (apply_post_rate_limit s now (some Y)).post_blocked_until =
          max s.post_blocked_until (now + 60 * (Y : ℚ))) := by
  refine ⟨?_, ?_, ?_, ?_⟩
  · cases dr <;> simp [apply_comment_rate_limit]
  · intro now₂ X₂ dr₂
    cases dr₂ <;> simp [apply_comment_rate_limit, le_max_left]
  · intro drv ras
    have h : ∀ s' : RateLimitState,
        (apply_comment_rate_limit s' now ras (some drv)).comments_today =
          min comments_per_day (max 0 (comments_per_day - max 0 drv)) := by
      intro s'
      cases ras <;> simp [apply_comment_rate_limit]
    rw [h s]
    simp only [comments_per_day]
    omega
  · intro Y
    simp [apply_post_rate_limit, mul_comm]

lemma can_comment_state (s : RateLimitState) (now : ℚ) :
    (can_comment s now).2 = check_and_reset_daily s (utcDay now) := by
  simp only [can_comment]
  split_ifs <;> rfl

lemma can_post_state (s : RateLimitState) (now : ℚ) :
    (can_post s now).2 = s := by
  unfold can_post
  split_ifs <;> rfl

lemma check_and_reset_daily_of_ne {s : RateLimitState} {d : ℤ}
    (h : s.reset_date ≠ d) : (check_and_reset_daily s d).comments_today = 0 := by
  unfold check_and_reset_daily
  rw [if_pos h]

lemma get_status_state (s : RateLimitState) (now : ℚ) :
    (get_status s now).2 = check_and_reset_daily s (utcDay now) := by
  simp only [get_status, can_comment_state, check_and_reset_daily_idem]

lemma get_status_comments_used (s : RateLimitState) (now : ℚ) :
    (get_status s now).1.comments_used =
      (check_and_reset_daily s (utcDay now)).comments_today := by
  simp only [get_status, can_comment_state, check_and_reset_daily_idem]

/-- C4 counterexample: the claim includes `can_post` and
`apply_post_rate_limit` among the accesses that perform the daily rollover,
but on a state dated day 0 accessed at time 86500 (day 1) both leave
`comments_today = 5` and `reset_date = 0` untouched. -/
theorem c4_counterexample_no_reset_in_can_post :
    (0 : ℤ) ≠ utcDay 86500
    ∧ (can_post
        { reset_date := 0, comments_today := 5, last_comment_time := 0,
          last_post_time := 0, comment_blocked_until := 0,
          post_blocked_until := 0 } 86500).2.comments_today = 5
    ∧ (can_post
        { reset_date := 0, comments_today := 5, last_comment_time := 0,
          last_post_time := 0, comment_blocked_until := 0,
          post_blocked_until := 0 } 86500).2.reset_date = 0
    ∧ (apply_post_rate_limit
        { reset_date := 0, comments_today := 5, last_comment_time := 0,
          last_post_time := 0, comment_blocked_until := 0,
          post_blocked_until := 0 } 86500 (some 5)).comments_today = 5
    ∧ (apply_post_rate_limit
        { reset_date := 0, comments_today := 5, last_comment_time := 0,
          last_post_time := 0, comment_blocked_until := 0,
          post_blocked_until := 0 } 86500 (some 5)).reset_date = 0 := by
  refine ⟨by norm_num [utcDay], ?_, ?_, ?_, ?_⟩ <;>
    simp [can_post_state, apply_post_rate_limit]

/-- C4 (amended): the daily rollover — zeroing `comments_today` and
updating `reset_date` when the stored `reset_date` differs from the current
UTC date — is performed lazily, before any limit is evaluated, on accesses
through `can_comment`, `get_status`, `record_comment` and
`apply_comment_rate_limit`; `can_post` and `apply_post_rate_limit` perform
no such reset (they leave `reset_date` and `comments_today` untouched);
crossing a UTC day boundary therefore still resets `comments_today` to 0 on
the next status check, regardless of process uptime. -/
theorem c4_amended_daily_rollover (s : RateLimitState) (now : ℚ) (r dr : Option ℤ) :
    (s.reset_date ≠ utcDay now →
      (check_and_reset_daily s (utcDay now)).comments_today = 0 ∧
      (check_and_reset_daily s (utcDay now)).reset_date = utcDay now)
    ∧ can_comment s now = can_comment (check_and_reset_daily s (utcDay now)) now
    ∧ get_status s now = get_status (check_and_reset_daily s (utcDay now)) now
    ∧ record_comment s now = record_comment (check_and_reset_daily s (utcDay now)) now
    ∧ apply_comment_rate_limit s now r dr =
        apply_comment_rate_limit (check_and_reset_daily s (utcDay now)) now r dr
    ∧ (can_post s now).2 = s
    ∧ (apply_post_rate_limit s now r).reset_date = s.reset_date
    ∧ (apply_post_rate_limit s now r).comments_today = s.comments_today
    ∧ (s.reset_date ≠ utcDay now →
        (get_status s now).2.comments_today = 0 ∧
        (get_status s now).1.comments_used = 0) := by
  refine ⟨?_, ?_, ?_, ?_, ?_, can_post_state s now, ?_, ?_, ?_⟩
  · intro h
    exact ⟨check_and_reset_daily_of_ne h, check_and_reset_daily_reset_date s (utcDay now)⟩
  · simp only [can_comment, check_and_reset_daily_idem]
  · simp only [get_status, can_comment_state, check_and_reset_daily_idem]
  · simp only [record_comment, check_and_reset_daily_idem]
  · cases r <;> cases dr <;> simp [apply_comment_rate_limit, check_and_reset_daily_idem]
  · cases r <;> simp [apply_post_rate_limit]
  · cases r <;> simp [apply_post_rate_limit]
  · intro h
    rw [get_status_state, get_status_comments_used]
    exact ⟨check_and_reset_daily_of_ne h, check_and_reset_daily_of_ne h⟩

/-- C4 witness: a state dated day 0 with 5 comments, status-checked at time
86500 (day 1), comes back with `comments_today` reset to 0. -/
theorem c4_amended_daily_rollover_witness :
    (get_status
      { reset_date := 0, comments_today := 5, last_comment_time := 0,
        last_post_time := 0, comment_blocked_until := 0,
        post_blocked_until := 0 } 86500).2.comments_today = 0 := by
  have h := c4_amended_daily_rollover
    { reset_date := 0, comments_today := 5, last_comment_time := 0,
      last_post_time := 0, comment_blocked_until := 0,
      post_blocked_until := 0 } 86500 none none
  exact (h.2.2.2.2.2.2.2.2 (by norm_num [utcDay])).1

/-- C5 counterexample: starting from the freshly reset history, twenty
`add_to_history` calls leave a 20-message history whose first element is a
user message — the system/persona message has been evicted — and one
`add_tool_result` then grows the history to 21 messages, beyond the cap. -/
theorem c5_counterexample_system_message_evicted :
    ((List.range 20).foldl (fun h _ => add_to_history h "user" "x" [])
        reset_conversation).head?.map Message.role = some "user"
    ∧ (add_tool_result ((List.range 20).foldl
        (fun h _ => add_to_history h "user" "x" []) reset_conversation)
        "get_feed" "ok").length = 21 := by
  constructor
  · decide
  · decide

/-- C5 (amended): method `reset_conversation` restores the history to exactly the
system/persona message; `add_to_history` appends and caps the length at 20
by keeping only the 20 most recent messages, evicting the oldest messages
regardless of role — including the system message once it is among the
oldest; `add_tool_result` appends a tool message without trimming, so the
length can transiently exceed the 20-message cap. -/
theorem c5_amended_history_eviction (h : List Message) (role content : String)
    (tool_calls : List String) (tool_name result : String) :
    reset_conversation = [system_message]
    ∧ (add_to_history h role content tool_calls).length = min (h.length + 1) max_history
    ∧ add_to_history h role content tool_calls =
        (h ++ [(⟨role, content, tool_calls, none⟩ : Message)]).drop
          (h.length + 1 - max_history)
    ∧ add_tool_result h tool_name result =
        h ++ [(⟨"tool", result, [], some tool_name⟩ : Message)]
    ∧ (add_tool_result h tool_name result).length = h.length + 1 := by
  have hlen : (h ++ [(⟨role, content, tool_calls, none⟩ : Message)]).length =
      h.length + 1 := by simp
  refine ⟨rfl, ?_, ?_, rfl, by simp [add_tool_result]⟩
  · simp only [add_to_history, max_history]
    split_ifs with hl
    · rw [List.length_drop, hlen]
      rw [hlen] at hl
      omega
    · rw [hlen]
      rw [hlen] at hl
      omega
  · simp only [add_to_history, max_history]
    split_ifs with hl
    · rw [hlen]
    · rw [hlen] at hl
      rw [Nat.sub_eq_zero_of_le (by omega), List.drop_zero]

/-- C6: whenever `can_comment()` denies, `_create_comment` returns
immediately with a failed outcome carrying the rate-limit flag and the
denial's reason/wait fields, and the Remote Platform Client is never
invoked for that call. -/
theorem c6_create_comment_rate_limited_no_remote_call (s : RateLimitState) (now : ℚ)
    (client : ClientResult)
    (hdenied : (can_comment s now).1.allowed = false) :
    (create_comment_tool s now client).2.2 = false
    ∧ (create_comment_tool s now client).1.rate_limit = true
    ∧ (create_comment_tool s now client).1.success = false
    ∧ (create_comment_tool s now client).1.reason = (can_comment s now).1.reason
    ∧ (create_comment_tool s now client).1.wait_seconds = (can_comment s now).1.wait_seconds
    ∧ (create_comment_tool s now client).1.wait_until = (can_comment s now).1.wait_until
    ∧ (create_comment_tool s now client).1.comments_remaining =
        some (can_comment s now).1.comments_remaining := by
  simp [create_comment_tool, hdenied]

/-- C6 witness: a fresh tracker queried 5 seconds after its (zero)
`last_comment_time` is in the 20-second cooldown, and the executor then
skips the remote client. -/
theorem c6_create_comment_rate_limited_no_remote_call_witness :
    (can_comment (create_initial_state 0) 5).1.allowed = false
    ∧ (create_comment_tool (create_initial_state 0) 5
        ⟨true, none, none, none, none⟩).2.2 = false := by
  have hden : (can_comment (create_initial_state 0) 5).1.allowed = false := by
    norm_num [can_comment, check_and_reset_daily, utcDay, create_initial_state,
      comments_per_day, comment_cooldown_seconds]
  exact ⟨hden, (c6_create_comment_rate_limited_no_remote_call
    (create_initial_state 0) 5 ⟨true, none, none, none, none⟩ hden).1⟩

/-- C7: the method `ToolExecutor.execute` always returns a structured outcome: an
unregistered tool name yields `success = false` with a descriptive error
and invokes no handler (hence no remote call), a handler that raises is
caught and converted into a `success = false` outcome carrying the
exception text, and a handler that returns passes its result through. -/
theorem c7_execute_total (tool_name : String) (run : String → Except String Outcome) :
    (tool_name ∉ tool_map_names →
      execute tool_name run =
        ((⟨false, some ("Unknown tool: " ++ tool_name), false, none, none, none,
            none, none⟩ : Outcome), false))
    ∧ (∀ e, tool_name ∈ tool_map_names → run tool_name = Except.error e →
        (execute tool_name run).1.success = false ∧
        (execute tool_name run).1.error = some e ∧
        (execute tool_name run).2 = true)
    ∧ (∀ r, tool_name ∈ tool_map_names → run tool_name = Except.ok r →
        execute tool_name run = (r, true)) := by
  refine ⟨?_, ?_, ?_⟩
  · intro hnot
    simp [execute, hnot]
  · intro e hmem herr
    simp [execute, hmem, herr]
  · intro r hmem hok
    simp [execute, hmem, hok]

/-- C7 witness: the unregistered name `bogus` is rejected with a
descriptive error and without running any handler. -/
theorem c7_execute_total_witness :
    "bogus" ∉ tool_map_names
    ∧ execute "bogus" (fun _ => Except.error "boom") =
        ((⟨false, some ("Unknown tool: " ++ "bogus"), false, none, none, none,
            none, none⟩ : Outcome), false) := by
  have hnot : "bogus" ∉ tool_map_names := by decide
  exact ⟨hnot, (c7_execute_total "bogus" (fun _ => Except.error "boom")).1 hnot⟩

lemma decision_loop_aux_le (decide : ℕ → List ToolCall) (fuel iteration : ℕ) :
    decision_loop_aux decide fuel iteration ≤ iteration + fuel := by
  induction fuel generalizing iteration with
  | zero => simp [decision_loop_aux]
  | succ n ih =>
    simp only [decision_loop_aux]
    split_ifs
    · omega
    · have := ih (iteration + 1)
      omega

lemma decision_loop_aux_eq_of_never_done (decide : ℕ → List ToolCall)
    (hnd : ∀ n, turn_done (decide n) = false) (fuel iteration : ℕ) :
    decision_loop_aux decide fuel iteration = iteration + fuel := by
  induction fuel generalizing iteration with
  | zero => simp [decision_loop_aux]
  | succ n ih =>
    simp only [decision_loop_aux]
    rw [if_neg (by simp [hnd]), ih]
    omega

/-- C8: one orchestrator cycle performs at most
`max_iterations_per_cycle = 10` decision iterations, and when the Decision
Engine returns a non-terminating tool call on every turn the inner loop
still ends, after exactly the 10th iteration. -/
theorem c8_cycle_iteration_cap (decide : ℕ → List ToolCall) :
    decision_loop_iterations decide max_iterations_per_cycle ≤ 10
    ∧ ((∀ n, turn_done (decide n) = false) →
        decision_loop_iterations decide max_iterations_per_cycle = 10) := by
  constructor
  · simpa [decision_loop_iterations, max_iterations_per_cycle] using
      decision_loop_aux_le decide 10 0
  · intro h
    simpa [decision_loop_iterations, max_iterations_per_cycle] using
      decision_loop_aux_eq_of_never_done decide h 10 0

/-- C8 witness: a Decision Engine that requests `get_feed` on every turn
never terminates the cycle itself, and the loop stops after exactly 10
iterations. -/
theorem c8_cycle_iteration_cap_witness :
    decision_loop_iterations (fun _ => [⟨"get_feed", []⟩]) max_iterations_per_cycle = 10 :=
  (c8_cycle_iteration_cap (fun _ => [⟨"get_feed", []⟩])).2
    (fun _ => by simp [turn_done])

/-- Invariant of the §3 data model: the daily comment counter never exceeds
the daily comment limit. -/
def comments_within_daily_limit (s : RateLimitState) : Prop :=
  s.comments_today ≤ comments_per_day

lemma check_and_reset_daily_comments_le (s : RateLimitState) (d : ℤ)
    (h : comments_within_daily_limit s) :
    comments_within_daily_limit (check_and_reset_daily s d) := by
  unfold comments_within_daily_limit check_and_reset_daily at *
  split_ifs
  · simp [comments_per_day]
  · exact h

lemma can_comment_allowed_lt (s : RateLimitState) (now : ℚ)
    (h : (can_comment s now).1.allowed = true) :
    (check_and_reset_daily s (utcDay now)).comments_today < comments_per_day := by
  simp only [can_comment] at h
  split_ifs at h with h1 h2 h3
  simp_all [not_le]

lemma record_comment_comments_today (s : RateLimitState) (now : ℚ) :
    (record_comment s now).comments_today =
      (check_and_reset_daily s (utcDay now)).comments_today + 1 := by
  simp [record_comment]

lemma apply_comment_rate_limit_comments_today (s : RateLimitState) (now : ℚ)
    (ras dr : Option ℤ) :
    (apply_comment_rate_limit s now ras dr).comments_today =
      (match dr with
       | none => (check_and_reset_daily s (utcDay now)).comments_today
       | some d => min comments_per_day (max 0 (comments_per_day - max 0 d))) := by
  cases dr <;> cases ras <;> simp [apply_comment_rate_limit]

lemma create_comment_tool_state (s : RateLimitState) (now : ℚ) (client : ClientResult) :
    (create_comment_tool s now client).2.1 =
      (if (can_comment s now).1.allowed = false then (can_comment s now).2
       else if client.success then record_comment ((can_comment s now).2) now
       else if client.status_code = some 429 then
         apply_comment_rate_limit ((can_comment s now).2) now
           client.retry_after_seconds client.daily_remaining
       else (can_comment s now).2) := by
  simp only [create_comment_tool]
  split_ifs <;> rfl

/-- C9: under executor-mediated operation — `record_comment` only after an
allowed `can_comment()` check, server reconciliation clamping the counter —
`comments_today ≤ 50` is preserved by every Rate Limit Tracker operation
(and a reconciling `apply_comment_rate_limit` with a reported
`daily_remaining` restores it even from a violating state). -/
theorem c9_comments_today_invariant (s : RateLimitState) (now : ℚ) :
    (comments_within_daily_limit s → comments_within_daily_limit (can_comment s now).2)
    ∧ (comments_within_daily_limit s → comments_within_daily_limit (can_post s now).2)
    ∧ (comments_within_daily_limit s → comments_within_daily_limit (get_status s now).2)
    ∧ ((can_comment s now).1.allowed = true →
        comments_within_daily_limit (record_comment s now))
    ∧ (comments_within_daily_limit s → comments_within_daily_limit (record_post s now))
    ∧ (∀ ras dr : Option ℤ, comments_within_daily_limit s →
        comments_within_daily_limit (apply_comment_rate_limit s now ras dr))
    ∧ (∀ ram : Option ℤ, comments_within_daily_limit s →
        comments_within_daily_limit (apply_post_rate_limit s now ram))
    ∧ (∀ (dr : ℤ) (ras : Option ℤ),
        comments_within_daily_limit (apply_comment_rate_limit s now ras (some dr)))
    ∧ (∀ client : ClientResult, comments_within_daily_limit s →
        comments_within_daily_limit (create_comment_tool s now client).2.1) := by
  have happly : ∀ (s' : RateLimitState) (ras dr : Option ℤ),
      comments_within_daily_limit s' →
      comments_within_daily_limit (apply_comment_rate_limit s' now ras dr) := by
    intro s' ras dr h
    unfold comments_within_daily_limit
    rw [apply_comment_rate_limit_comments_today]
    cases dr with
    | none => exact check_and_reset_daily_comments_le s' (utcDay now) h
    | some d => exact min_le_left _ _
  have hrec : ∀ s' : RateLimitState, (can_comment s' now).1.allowed = true →
      comments_within_daily_limit (record_comment s' now) := by
    intro s' hall
    unfold comments_within_daily_limit
    rw [record_comment_comments_today]
    have := can_comment_allowed_lt s' now hall
    omega
  refine ⟨?_, ?_, ?_, hrec s, ?_, fun ras dr h => happly s ras dr h, ?_, ?_, ?_⟩
  · intro h
    rw [can_comment_state]
    exact check_and_reset_daily_comments_le s (utcDay now) h
  · intro h
    rw [can_post_state]
    exact h
  · intro h
    rw [get_status_state]
    exact check_and_reset_daily_comments_le s (utcDay now) h
  · intro h
    unfold comments_within_daily_limit record_post at *
    exact h
  · intro ram h
    unfold comments_within_daily_limit at *
    cases ram <;> simpa [apply_post_rate_limit] using h
  · intro dr ras
    unfold comments_within_daily_limit
    rw [apply_comment_rate_limit_comments_today]
    exact min_le_left _ _
  · intro client h
    rw [create_comment_tool_state]
    split_ifs with h1 h2 h3
    · rw [can_comment_state]
      exact check_and_reset_daily_comments_le s (utcDay now) h
    · have hall : (can_comment s now).1.allowed = true := by
        cases hb : (can_comment s now).1.allowed
        · exact absurd hb h1
        · rfl
      have hlt := can_comment_allowed_lt s now hall
      unfold comments_within_daily_limit
      rw [record_comment_comments_today, can_comment_state, check_and_reset_daily_idem]
      omega
    · refine happly ((can_comment s now).2) _ _ ?_
      rw [can_comment_state]
      exact check_and_reset_daily_comments_le s (utcDay now) h
    · rw [can_comment_state]
      exact check_and_reset_daily_comments_le s (utcDay now) h

/-- C9 witness: the allowed fresh state at time 100 stays within the limit
after recording the comment. -/
theorem c9_comments_today_invariant_witness :
    (can_comment (create_initial_state 0) 100).1.allowed = true ∧
    comments_within_daily_limit (record_comment (create_initial_state 0) 100) := by
  have hall : (can_comment (create_initial_state 0) 100).1.allowed = true := by
    norm_num [can_comment, check_and_reset_daily, utcDay, create_initial_state,
      comments_per_day, comment_cooldown_seconds]
  exact ⟨hall, (c9_comments_today_invariant (create_initial_state 0) 100).2.2.2.1 hall⟩

/-- C10: evaluation of `mark_all_pending_as_seen` at a store holding one
pending suggestion. The claim (and the function's own name) say the
suggestion should transition to status `seen` and remain stored; the code
instead deletes every pending suggestion from the store outright, so no
record with status `seen` ever results from consumption. -/
theorem c10_pending_suggestion_deleted_not_marked_seen :
    get_pending [(⟨1, "tell Peter about the giant chicken", 1000, "pending", none⟩ : Suggestion)] =
      [(⟨1, "tell Peter about the giant chicken", 1000, "pending", none⟩ : Suggestion)]
    ∧ mark_all_pending_as_seen
        [(⟨1, "tell Peter about the giant chicken", 1000, "pending", none⟩ : Suggestion)] = []
    ∧ mark_seen [(⟨1, "tell Peter about the giant chicken", 1000, "pending", none⟩ : Suggestion)]
        1 2000 =
      [(⟨1, "tell Peter about the giant chicken", 1000, "seen", some 2000⟩ : Suggestion)] := by
  refine ⟨?_, ?_, ?_⟩
  · simp [get_pending]
  · simp [mark_all_pending_as_seen]
  · simp [mark_seen]
